import Mathlib

/-!
Verification development for the `inquire` research-orchestration core
(`src/inquire/core.py`).  The orchestrator wires a placeholder research
backend to an external extraction callable, validates the returned value
against a caller-supplied schema, and raises on mismatch.

Python values are modelled as tagged records, exceptions as a small
inductive carrying class name, message and chained cause, and the
filesystem and extraction-capability manager as explicit state.  Modules
of the repository that are imported by `core.py` but whose sources are
not available (`inquire/config.py`, `inquire/baml_manager.py`,
`inquire/exceptions.py`) are modelled from the specification, as marked
on each definition.
-/

namespace Inquire

/-- A Python-style exception value: class name, message, and the optional
chained cause set by a `raise ... from e` statement. -/
inductive Exc where
  | mk (name : String) (msg : String) (cause : Option Exc)

/-- The exception class name. -/
def Exc.name : Exc → String
  | .mk n _ _ => n

/-- The exception message; `str(e)` of a standard Python exception. -/
def Exc.msg : Exc → String
  | .mk _ m _ => m

/-- The chained cause of the exception. -/
def Exc.cause : Exc → Option Exc
  | .mk _ _ c => c

/-- A runtime value returned by an extraction callable: its runtime type
name and an opaque payload. -/
structure PyVal where
  ty : String
  payload : String
deriving DecidableEq

/-- The external filesystem state the configuration validation consults:
the collection of existing, readable directories. -/
structure FileSystem where
  dirs : List String

/-- Modelled from the spec: `ResearchConfig` (`inquire/config.py` is not
among the sources).  An open key/value configuration mapping; values are
modelled as strings. -/
structure ResearchConfig where
  entries : List (String × String)
deriving DecidableEq

/-- Modelled from the spec: the built-in defaults.  The one documented key
is the schema location `baml_dir`, defaulting to the conventional
`baml_schemas` subdirectory of the current working directory. -/
def configDefaults : List (String × String) := [("baml_dir", "baml_schemas")]

/-- Modelled from the spec: `ResearchConfig.from_dict` merges the override
mapping onto the built-in defaults; unknown keys are accepted as-is and no
validation is performed.  Lookup takes the first matching key, so override
entries shadow defaults. -/
def ResearchConfig.from_dict (m : List (String × String)) : ResearchConfig :=
  ⟨m ++ configDefaults⟩

/-- The configured schema location. -/
def ResearchConfig.baml_dir (c : ResearchConfig) : String :=
  (c.entries.lookup "baml_dir").getD "baml_schemas"

/-- Assignment `self.config.baml_dir = p` from `Researcher.__init__`. -/
def ResearchConfig.setBamlDir (c : ResearchConfig) (p : String) : ResearchConfig :=
  ⟨("baml_dir", p) :: c.entries⟩

/-- Modelled from the spec: `ConfigurationError` raised by configuration
validation, naming the invalid field. -/
def ConfigurationError (field : String) : Exc :=
  Exc.mk "ConfigurationError" ("invalid configuration field: " ++ field) none

/-- Modelled from the spec: `ResearchConfig.validate_or_raise` checks that
the configured schema location exists and is a readable directory, failing
with a `ConfigurationError` naming the field otherwise. -/
def ResearchConfig.validate_or_raise (fs : FileSystem) (c : ResearchConfig) :
    Except Exc Unit :=
  if fs.dirs.contains c.baml_dir then Except.ok () else
    Except.error (ConfigurationError "baml_dir")

/-- An extraction callable (a BAML function): whether the manager
recognizes it as a valid extraction function, and its behaviour when
invoked on the research text (returning a value or raising). -/
structure BamlFunction where
  recognized : Bool
  run : String → Except Exc PyVal

/-- Modelled from the spec: the extraction-capability manager
(`inquire/baml_manager.py` is not among the sources).  It has the two
states uninitialized and ready; `initCount` counts how many times actual
first-time setup work was performed, and `initError` is the external
failure, if any, that first-time setup would hit. -/
structure BamlManager where
  baml_dir : String
  initialized : Bool
  initCount : Nat
  initError : Option Exc

/-- Modelled from the spec: `BamlManager(baml_dir)` constructs an
uninitialized manager for the given schema directory. -/
def BamlManager.new (dir : String) : BamlManager :=
  ⟨dir, false, 0, none⟩

/-- Modelled from the spec: `BamlManager.init` is idempotent, with a
single one-way uninitialized-to-ready transition performed by the first
call; it may fail with a manager-specific external error. -/
def BamlManager.init (m : BamlManager) : Except Exc BamlManager :=
  if m.initialized then Except.ok m
  else
    match m.initError with
    | some e => Except.error e
    | none =>
        Except.ok { m with initialized := true, initCount := m.initCount + 1 }

/-- Modelled from the spec: the error raised when the supplied extractor
is not a recognized extraction function. -/
def InvalidFunctionError : Exc :=
  Exc.mk "InvalidFunctionError" "not a recognized BAML function" none

/-- Modelled from the spec: `BamlManager.verify_function` checks that the
supplied callable is a recognized extraction function, raising
`InvalidFunctionError` otherwise. -/
def BamlManager.verify_function (_m : BamlManager) (f : BamlFunction) :
    Except Exc Unit :=
  if f.recognized then Except.ok () else Except.error InvalidFunctionError

/-- The research orchestrator: its configuration and the handle to the
extraction-capability manager. -/
structure Researcher where
  config : ResearchConfig
  baml_manager : BamlManager

/-- Python truthiness of a path-like value modelled as a string: the empty
string is falsy, every other string is truthy. -/
def pyTruthy (p : String) : Bool := p ≠ ""

/-- Embedding of `Researcher.__init__`: build the configuration from the
overrides, apply the `baml_dir` argument only when it is truthy, construct
the manager from the resulting location, then validate the configuration
(which may raise, failing construction). -/
def Researcher.new (fs : FileSystem) (baml_dir : Option String)
    (config : Option (List (String × String))) : Except Exc Researcher :=
  let cfg0 := ResearchConfig.from_dict (config.getD [])
  let cfg :=
    match baml_dir with
    | some p => if pyTruthy p then cfg0.setBamlDir p else cfg0
    | none => cfg0
  let mgr := BamlManager.new cfg.baml_dir
  match cfg.validate_or_raise fs with
  | Except.ok _ => Except.ok ⟨cfg, mgr⟩
  | Except.error e => Except.error e

/-- Embedding of `Researcher._run_research`: the deterministic placeholder
backend that wraps the instructions in a fixed textual template. -/
def Researcher.run_research (_r : Researcher) (instructions : String) : String :=
  "[Research output for: " ++ instructions ++ "]"

/-- A step performed during a `research` call, in order: manager
initialization, extractor verification, research-backend invocation, and
extractor invocation (recording the text passed to the extractor). -/
inductive Event where
  | initStep
  | verifyStep
  | backendStep
  | extractStep (input : String)
deriving DecidableEq

/-- Embedding of `Researcher.research`: initialize the manager, verify the
extraction function, produce the research text, invoke the extractor under
the `ExtractionError` wrapper, and check the result against the schema.
Returns the updated orchestrator, the ordered trace of steps performed,
and the outcome. -/
def Researcher.research (r : Researcher) (research_instructions : String)
    (schema : String) (baml_function : BamlFunction) :
    Researcher × List Event × Except Exc PyVal :=
  match r.baml_manager.init with
  | Except.error e => (r, [Event.initStep], Except.error e)
  | Except.ok mgr =>
    let r1 : Researcher := { r with baml_manager := mgr }
    match mgr.verify_function baml_function with
    | Except.error e => (r1, [Event.initStep, Event.verifyStep], Except.error e)
    | Except.ok _ =>
      let research_output := r1.run_research research_instructions
      match baml_function.run research_output with
      | Except.error e =>
          (r1,
           [Event.initStep, Event.verifyStep, Event.backendStep,
            Event.extractStep research_output],
           Except.error (Exc.mk "ExtractionError"
             ("BAML extraction failed: " ++ e.msg) (some e)))
      | Except.ok result =>
          if result.ty = schema then
            (r1,
             [Event.initStep, Event.verifyStep, Event.backendStep,
              Event.extractStep research_output],
             Except.ok result)
          else
            (r1,
             [Event.initStep, Event.verifyStep, Event.backendStep,
              Event.extractStep research_output],
             Except.error (Exc.mk "ExtractionError"
               ("BAML function returned <class " ++ result.ty ++
                ">, expected <class " ++ schema ++ ">") none))

/-- Embedding of the module-level `research` convenience function: build a
`Researcher` from the optional overrides (construction may raise) and
delegate to its `research` method. -/
def research (fs : FileSystem) (research_instructions : String)
    (schema : String) (baml_function : BamlFunction)
    (config : Option (List (String × String))) : Except Exc PyVal :=
  match Researcher.new fs none config with
  | Except.error e => Except.error e
  | Except.ok researcher =>
      (researcher.research research_instructions schema baml_function).2.2

/-- A sample conforming value of runtime type `Schema`. -/
def goodVal : PyVal := ⟨"Schema", "data"⟩

/-- A recognized extractor that returns the conforming value. -/
def goodFn : BamlFunction := ⟨true, fun _ => Except.ok goodVal⟩

/-- A recognized extractor that raises `RuntimeError("boom")`. -/
def boomFn : BamlFunction :=
  ⟨true, fun _ => Except.error (Exc.mk "RuntimeError" "boom" none)⟩

/-- A recognized extractor that returns a value of the wrong type `B`. -/
def wrongTypeFn : BamlFunction := ⟨true, fun _ => Except.ok ⟨"B", "data"⟩⟩

/-- A callable the manager does not recognize as an extraction function. -/
def badFn : BamlFunction := ⟨false, fun _ => Except.ok goodVal⟩

/-- A freshly constructed orchestrator with the default configuration and
an uninitialized manager. -/
def sampleResearcher : Researcher :=
  ⟨ResearchConfig.from_dict [], BamlManager.new "baml_schemas"⟩

/-- An orchestrator whose manager hits an external error on first-time
initialization. -/
def brokenResearcher : Researcher :=
  ⟨ResearchConfig.from_dict [],
   ⟨"baml_schemas", false, 0, some (Exc.mk "OSError" "cannot load schemas" none)⟩⟩

/-- The manager state reached by a `research` call whose initialization
step succeeds: the one-way uninitialized-to-ready transition. -/
theorem research_manager_state (r : Researcher) (i s : String)
    (f : BamlFunction) (h : r.baml_manager.initError = none) :
    (r.research i s f).1.baml_manager =
      if r.baml_manager.initialized then r.baml_manager
      else { r.baml_manager with
             initialized := true
             initCount := r.baml_manager.initCount + 1 } := by
  unfold Researcher.research BamlManager.init
  by_cases h2 : r.baml_manager.initialized
  · simp only [h2, if_true]
    split
    · rfl
    · split
      · rfl
      · split <;> rfl
  · simp only [h2, Bool.false_eq_true, if_false, h]
    split
    · rfl
    · split
      · rfl
      · split <;> rfl

/-- Claim C1: for every schema `s` and every extractor that, applied to the
produced research text, returns a value `v` conforming to `s`,
`Researcher.research` returns exactly that value `v`, unmodified. -/
theorem claim1_research_returns_conforming_value (r : Researcher) (i s : String)
    (f : BamlFunction) (v : PyVal)
    (hm : r.baml_manager.initialized = true ∨ r.baml_manager.initError = none)
    (hf : f.recognized = true)
    (hv : f.run (r.run_research i) = Except.ok v)
    (hs : v.ty = s) :
    (r.research i s f).2.2 = Except.ok v := by
  have hv2 : f.run ("[Research output for: " ++ i ++ "]") = Except.ok v := by
    simpa [Researcher.run_research] using hv
  unfold Researcher.research BamlManager.init
  rcases hm with h2 | h2
  · simp [h2, BamlManager.verify_function, hf, Researcher.run_research, hv2, hs]
  · by_cases h3 : r.baml_manager.initialized
    · simp [h3, BamlManager.verify_function, hf, Researcher.run_research, hv2, hs]
    · simp [h3, h2, Bool.false_eq_true, BamlManager.verify_function, hf,
        Researcher.run_research, hv2, hs]

/-- Witness for C1: a concrete run that returns the conforming value. -/
theorem claim1_conforming_witness :
    (sampleResearcher.research "find X" "Schema" goodFn).2.2 = Except.ok goodVal :=
  claim1_research_returns_conforming_value sampleResearcher "find X" "Schema"
    goodFn goodVal (Or.inr rfl) rfl rfl rfl

/-- Claim C2: when the extractor raises `e`, `Researcher.research` raises an
`ExtractionError` whose message contains the message of `e` and whose chained
cause is `e` itself. -/
theorem claim2_extractor_exception_wrapped (r : Researcher) (i s : String)
    (f : BamlFunction) (e : Exc)
    (hm : r.baml_manager.initialized = true ∨ r.baml_manager.initError = none)
    (hf : f.recognized = true)
    (he : f.run (r.run_research i) = Except.error e) :
    ∃ ex : Exc, (r.research i s f).2.2 = Except.error ex ∧
      ex.name = "ExtractionError" ∧ ex.cause = some e ∧
      ∃ pre suf : String, ex.msg = pre ++ e.msg ++ suf := by
  have he2 : f.run ("[Research output for: " ++ i ++ "]") = Except.error e := by
    simpa [Researcher.run_research] using he
  refine ⟨Exc.mk "ExtractionError" ("BAML extraction failed: " ++ e.msg) (some e),
    ?_, rfl, rfl, "BAML extraction failed: ", "", by simp [Exc.msg]⟩
  unfold Researcher.research BamlManager.init
  rcases hm with h2 | h2
  · simp [h2, BamlManager.verify_function, hf, Researcher.run_research, he2]
  · by_cases h3 : r.baml_manager.initialized
    · simp [h3, BamlManager.verify_function, hf, Researcher.run_research, he2]
    · simp [h3, h2, Bool.false_eq_true, BamlManager.verify_function, hf,
        Researcher.run_research, he2]

/-- Witness for C2: an extractor raising `RuntimeError("boom")` yields an
`ExtractionError` containing "boom" whose cause is the `RuntimeError`. -/
theorem claim2_wrapped_witness :
    ∃ ex : Exc,
      (sampleResearcher.research "find X" "Schema" boomFn).2.2 = Except.error ex ∧
      ex.name = "ExtractionError" ∧
      ex.cause = some (Exc.mk "RuntimeError" "boom" none) ∧
      ∃ pre suf : String,
        ex.msg = pre ++ (Exc.mk "RuntimeError" "boom" none).msg ++ suf :=
  claim2_extractor_exception_wrapped sampleResearcher "find X" "Schema" boomFn
    (Exc.mk "RuntimeError" "boom" none) (Or.inr rfl) rfl rfl

/-- Claim C3: when the extractor returns a value whose runtime type does not
conform to the requested schema, `Researcher.research` raises an
`ExtractionError` whose message mentions both the actual type and the
expected schema. -/
theorem claim3_schema_mismatch_reported (r : Researcher) (i s : String)
    (f : BamlFunction) (v : PyVal)
    (hm : r.baml_manager.initialized = true ∨ r.baml_manager.initError = none)
    (hf : f.recognized = true)
    (hv : f.run (r.run_research i) = Except.ok v)
    (hne : v.ty ≠ s) :
    ∃ ex : Exc, (r.research i s f).2.2 = Except.error ex ∧
      ex.name = "ExtractionError" ∧
      (∃ p q : String, ex.msg = p ++ v.ty ++ q) ∧
      (∃ p q : String, ex.msg = p ++ s ++ q) := by
  have hv2 : f.run ("[Research output for: " ++ i ++ "]") = Except.ok v := by
    simpa [Researcher.run_research] using hv
  refine ⟨Exc.mk "ExtractionError"
      ("BAML function returned <class " ++ v.ty ++ ">, expected <class " ++ s ++ ">")
      none, ?_, rfl,
    ⟨"BAML function returned <class ", ">, expected <class " ++ s ++ ">",
      by simp [Exc.msg, String.append_assoc]⟩,
    ⟨"BAML function returned <class " ++ v.ty ++ ">, expected <class ", ">",
      by simp [Exc.msg, String.append_assoc]⟩⟩
  unfold Researcher.research BamlManager.init
  rcases hm with h2 | h2
  · simp [h2, BamlManager.verify_function, hf, Researcher.run_research, hv2, hne]
  · by_cases h3 : r.baml_manager.initialized
    · simp [h3, BamlManager.verify_function, hf, Researcher.run_research, hv2, hne]
    · simp [h3, h2, Bool.false_eq_true, BamlManager.verify_function, hf,
        Researcher.run_research, hv2, hne]

/-- Witness for C3: an extractor returning a value of type `B` against a
schema `Schema` yields an `ExtractionError` naming both shapes. -/
theorem claim3_mismatch_witness :
    ∃ ex : Exc,
      (sampleResearcher.research "find X" "Schema" wrongTypeFn).2.2 = Except.error ex ∧
      ex.name = "ExtractionError" ∧
      (∃ p q : String, ex.msg = p ++ (PyVal.mk "B" "data").ty ++ q) ∧
      (∃ p q : String, ex.msg = p ++ "Schema" ++ q) :=
  claim3_schema_mismatch_reported sampleResearcher "find X" "Schema" wrongTypeFn
    (PyVal.mk "B" "data") (Or.inr rfl) rfl rfl (by decide)

/-- Claim C4: the research backend step is the deterministic template
wrapping the instructions, it does not depend on the orchestrator state, and
it is exactly the text passed to the extractor. -/
theorem claim4_backend_placeholder_template (r r2 : Researcher) (i s : String)
    (f : BamlFunction) :
    r.run_research i = "[Research output for: " ++ i ++ "]" ∧
    r.run_research i = r2.run_research i ∧
    ∀ arg : String, Event.extractStep arg ∈ (r.research i s f).2.1 →
      arg = "[Research output for: " ++ i ++ "]" := by
  refine ⟨rfl, rfl, ?_⟩
  intro arg harg
  unfold Researcher.research at harg
  split at harg
  · simp at harg
  · split at harg
    · simp at harg
    · simp only [Researcher.run_research] at harg
      split at harg
      · simp_all
      · split at harg <;> simp_all

/-- Witness for C4: the concrete template produced for a concrete
instruction string. -/
theorem claim4_template_witness :
    sampleResearcher.run_research "find X" =
      "[Research output for: " ++ "find X" ++ "]" :=
  (claim4_backend_placeholder_template sampleResearcher sampleResearcher
    "find X" "Schema" goodFn).1

/-- Claim C5: the module-level `research` function with no explicit config
has the same outcome as constructing a default `Researcher` and calling its
`research` method with the same arguments. -/
theorem claim5_module_wrapper_delegates (fs : FileSystem) (i s : String)
    (f : BamlFunction) :
    research fs i s f none =
      match Researcher.new fs none none with
      | Except.error e => Except.error e
      | Except.ok r => (r.research i s f).2.2 := rfl

/-- Claim C6: when extractor verification fails, that error propagates
immediately, unwrapped, and neither the research backend nor the extractor
is ever invoked; more generally every run performs each step at most once,
in order, with no retry. -/
theorem claim6_verify_failure_stops_flow (r : Researcher) (i s : String)
    (f : BamlFunction)
    (hm : r.baml_manager.initialized = true ∨ r.baml_manager.initError = none)
    (hf : f.recognized = false) :
    (r.research i s f).2.2 = Except.error InvalidFunctionError ∧
    (r.research i s f).2.1 = [Event.initStep, Event.verifyStep] ∧
    ∀ (r2 : Researcher) (i2 s2 : String) (f2 : BamlFunction),
      (r2.research i2 s2 f2).2.1 = [Event.initStep] ∨
      (r2.research i2 s2 f2).2.1 = [Event.initStep, Event.verifyStep] ∨
      (r2.research i2 s2 f2).2.1 =
        [Event.initStep, Event.verifyStep, Event.backendStep,
         Event.extractStep (r2.run_research i2)] := by
  refine ⟨?_, ?_, ?_⟩
  · unfold Researcher.research BamlManager.init
    rcases hm with h2 | h2
    · simp [h2, BamlManager.verify_function, hf, Bool.false_eq_true]
    · by_cases h3 : r.baml_manager.initialized
      · simp [h3, BamlManager.verify_function, hf, Bool.false_eq_true]
      · simp [h3, h2, Bool.false_eq_true, BamlManager.verify_function, hf]
  · unfold Researcher.research BamlManager.init
    rcases hm with h2 | h2
    · simp [h2, BamlManager.verify_function, hf, Bool.false_eq_true]
    · by_cases h3 : r.baml_manager.initialized
      · simp [h3, BamlManager.verify_function, hf, Bool.false_eq_true]
      · simp [h3, h2, Bool.false_eq_true, BamlManager.verify_function, hf]
  · intro r2 i2 s2 f2
    unfold Researcher.research
    split
    · exact Or.inl rfl
    · split
      · exact Or.inr (Or.inl rfl)
      · simp only [Researcher.run_research]
        split
        · exact Or.inr (Or.inr rfl)
        · split <;> exact Or.inr (Or.inr rfl)

/-- Witness for C6: an unrecognized callable makes the concrete run fail
with `InvalidFunctionError` after only the init and verify steps. -/
theorem claim6_stops_witness :
    (sampleResearcher.research "find X" "Schema" badFn).2.2 =
      Except.error InvalidFunctionError ∧
    (sampleResearcher.research "find X" "Schema" badFn).2.1 =
      [Event.initStep, Event.verifyStep] :=
  ⟨(claim6_verify_failure_stops_flow sampleResearcher "find X" "Schema" badFn
      (Or.inr rfl) rfl).1,
   (claim6_verify_failure_stops_flow sampleResearcher "find X" "Schema" badFn
      (Or.inr rfl) rfl).2.1⟩

/-- Claim C7: building a configuration from an overrides mapping preserves
every key the mapping gives (unknown keys accepted as-is, no validation),
and every absent key takes its built-in default value. -/
theorem claim7_from_dict_preserves_and_defaults (m : List (String × String))
    (k : String) :
    (ResearchConfig.from_dict m).entries.lookup k =
      match m.lookup k with
      | some v => some v
      | none => configDefaults.lookup k := by
  unfold ResearchConfig.from_dict
  induction m with
  | nil => rfl
  | cons a t ih =>
    rcases a with ⟨k1, v1⟩
    by_cases hk : k == k1
    · simp [List.lookup, hk]
    · simpa [List.lookup, hk] using ih

/-- Claim C8: two successive `research` calls on the same orchestrator
perform the manager's first-time setup exactly once: the first call performs
the one-way uninitialized-to-ready transition, the second is a no-op on the
manager state. -/
theorem claim8_init_performed_once (r : Researcher) (i1 s1 i2 s2 : String)
    (f1 f2 : BamlFunction) (h : r.baml_manager.initError = none) :
    ((r.research i1 s1 f1).1.research i2 s2 f2).1.baml_manager =
      (r.research i1 s1 f1).1.baml_manager ∧
    (r.research i1 s1 f1).1.baml_manager.initialized = true ∧
    (r.baml_manager.initialized = false →
      (r.research i1 s1 f1).1.baml_manager.initCount =
        r.baml_manager.initCount + 1) ∧
    (r.baml_manager.initialized = true →
      (r.research i1 s1 f1).1.baml_manager = r.baml_manager) := by
  have h1 := research_manager_state r i1 s1 f1 h
  have hinitd : (r.research i1 s1 f1).1.baml_manager.initialized = true := by
    rw [h1]; split
    · assumption
    · rfl
  have herr : (r.research i1 s1 f1).1.baml_manager.initError = none := by
    rw [h1]; split <;> exact h
  have h2 := research_manager_state (r.research i1 s1 f1).1 i2 s2 f2 herr
  rw [if_pos hinitd] at h2
  refine ⟨h2, hinitd, ?_, ?_⟩
  · intro hfalse
    rw [h1, if_neg (by simp [hfalse])]
  · intro htrue
    rw [h1, if_pos htrue]

/-- Witness for C8: on a fresh orchestrator the first call performs setup
once and the second call leaves the manager untouched. -/
theorem claim8_once_witness :
    ((sampleResearcher.research "a" "Schema" goodFn).1.research "b" "Schema"
        goodFn).1.baml_manager =
      (sampleResearcher.research "a" "Schema" goodFn).1.baml_manager ∧
    (sampleResearcher.research "a" "Schema" goodFn).1.baml_manager.initCount =
      sampleResearcher.baml_manager.initCount + 1 :=
  ⟨(claim8_init_performed_once sampleResearcher "a" "Schema" "b" "Schema"
      goodFn goodFn rfl).1,
   (claim8_init_performed_once sampleResearcher "a" "Schema" "b" "Schema"
      goodFn goodFn rfl).2.2.1 rfl⟩

/-- Claim C9: the `baml_dir` argument of `Researcher.__init__` overrides the
configured schema location only when truthy: a falsy path-like value is
silently ignored (construction is identical to passing no override), and a
truthy one is applied before the manager is constructed and before
validation runs. -/
theorem claim9_truthy_override_only (fs : FileSystem)
    (m : Option (List (String × String))) (p : String) :
    (pyTruthy p = false → Researcher.new fs (some p) m = Researcher.new fs none m) ∧
    (pyTruthy p = true →
      (∀ r : Researcher, Researcher.new fs (some p) m = Except.ok r →
        r.config.baml_dir = p ∧ r.baml_manager.baml_dir = p) ∧
      (Researcher.new fs (some p) m).isOk = fs.dirs.contains p) := by
  constructor
  · intro hp
    unfold Researcher.new
    simp [hp]
  · intro hp
    have hb : (ResearchConfig.setBamlDir
        (ResearchConfig.from_dict (m.getD [])) p).baml_dir = p := by
      simp [ResearchConfig.setBamlDir, ResearchConfig.baml_dir, List.lookup]
    constructor
    · intro r hr
      unfold Researcher.new at hr
      simp only [hp, if_true] at hr
      unfold ResearchConfig.validate_or_raise at hr
      by_cases hc : fs.dirs.contains (ResearchConfig.setBamlDir
          (ResearchConfig.from_dict (m.getD [])) p).baml_dir
      · simp only [hc, if_true] at hr
        cases hr
        exact ⟨hb, by simp [BamlManager.new, hb]⟩
      · simp only [hc, Bool.false_eq_true, if_false] at hr
        cases hr
    · unfold Researcher.new ResearchConfig.validate_or_raise
      simp only [hp, if_true]
      rw [hb]
      by_cases hc : p ∈ fs.dirs
      · simp [hc, Except.isOk, Except.toBool]
      · simp [hc, Except.isOk, Except.toBool]

/-- Witness for C9: the empty path override is ignored, while a truthy
override directs validation at the overridden directory. -/
theorem claim9_override_witness :
    Researcher.new ⟨["baml_schemas"]⟩ (some "") none =
      Researcher.new ⟨["baml_schemas"]⟩ none none ∧
    (Researcher.new ⟨["custom"]⟩ (some "custom") none).isOk = true :=
  ⟨(claim9_truthy_override_only ⟨["baml_schemas"]⟩ none "").1 rfl,
   ((claim9_truthy_override_only ⟨["custom"]⟩ none "custom").2 rfl).2.trans
     (by decide)⟩

/-- Claim C10: only the extractor invocation is guarded by the
`ExtractionError` wrapper: an error raised by manager initialization
propagates to the caller unchanged, and a verification failure propagates as
the exact `InvalidFunctionError`, which is not an `ExtractionError`. -/
theorem claim10_only_extractor_guarded (r : Researcher) (i s : String)
    (f : BamlFunction) :
    (∀ e : Exc, r.baml_manager.init = Except.error e →
      (r.research i s f).2.2 = Except.error e) ∧
    (∀ mgr : BamlManager, r.baml_manager.init = Except.ok mgr →
      f.recognized = false →
      (r.research i s f).2.2 = Except.error InvalidFunctionError) ∧
    InvalidFunctionError.name ≠ "ExtractionError" ∧
    InvalidFunctionError.cause = none := by
  refine ⟨?_, ?_, by decide, rfl⟩
  · intro e he
    unfold Researcher.research
    rw [he]
  · intro mgr hmg hf
    unfold Researcher.research
    rw [hmg]
    simp [BamlManager.verify_function, hf, Bool.false_eq_true]

/-- Witness for C10: a manager whose first-time setup hits an external error
makes the concrete run fail with exactly that error, unwrapped. -/
theorem claim10_guarded_witness :
    (brokenResearcher.research "x" "Schema" goodFn).2.2 =
      Except.error (Exc.mk "OSError" "cannot load schemas" none) :=
  (claim10_only_extractor_guarded brokenResearcher "x" "Schema" goodFn).1
    (Exc.mk "OSError" "cannot load schemas" none) rfl

end Inquire
